import Mathlib

/-!
Shallow embedding of the VerifyWise risk-importer plugin
(bulk risk import pipeline: file decoding, field mapping and validation,
risk-level matrix lookup, duplicate detection, transactional import).

Conventions of the embedding:
* JavaScript objects used as string-keyed maps become association lists
  (`List (String × _)`); assignment is `setKey` (replace in place, else
  append), matching JS property-assignment order semantics.
* A JS value that is `undefined` or `null` is `none`; JS string truthiness
  (`value || null`, `if (value)`) is `orNull` (empty string collapses to
  `none`).
* The tenant database is an explicit `DB` record; each SQL statement of the
  source becomes a pure function on `DB`.  `SELECT ... LIMIT 1` is
  `List.find?`.
* Database exceptions thrown by individual queries are modelled by an
  oracle `exc : Nat → Option String` consulted at the first query a row
  issues; the surrounding per-row try/catch of the source is the `match`
  on that oracle.
-/

namespace RiskImporter

/-- JS `String.prototype.trim`: strip whitespace from both ends
(structural definition so concrete inputs evaluate). -/
def jsTrim (s : String) : String :=
  String.mk (((s.data.dropWhile Char.isWhitespace).reverse.dropWhile Char.isWhitespace).reverse)

/-- JS string truthiness for optional values: `undefined`, `null` and the
empty string are all falsy (`value || null`). -/
def orNull : Option String → Option String
  | none => none
  | some s => if s = "" then none else some s

/-- JS object property assignment on an association list: replace the value
if the key exists (keeping its position), otherwise append the key at the
end. -/
def setKey {α : Type} : List (String × α) → String → α → List (String × α)
  | [], k, v => [(k, v)]
  | p :: rest, k, v =>
    if p.1 == k then (k, v) :: setKey rest k v else p :: setKey rest k v

/-- JS object property read on an association list. -/
def lookupKey {α : Type} (d : List (String × α)) (k : String) : Option α :=
  (d.find? (fun p => p.1 == k)).map (fun p => p.2)

/-- Read a (possibly null) field of a mapped-data bag; `undefined` and a
stored `null` both come back as `none`. -/
def lookupField (d : List (String × Option String)) (k : String) : Option String :=
  match lookupKey d k with
  | none => none
  | some v => v

/-- Reading a freshly assigned key returns the assigned value. -/
theorem lookupKey_setKey {α : Type} (d : List (String × α)) (k : String) (v : α) :
    lookupKey (setKey d k v) k = some v := by
  induction d with
  | nil => simp [setKey, lookupKey]
  | cons p rest ih =>
    by_cases h : p.1 == k
    · simp [setKey, h, lookupKey]
    · simpa [setKey, h, lookupKey, List.find?] using ih

/-- Reading a different key is unaffected by `setKey`. -/
theorem lookupKey_setKey_ne {α : Type} (d : List (String × α)) (k k' : String) (v : α)
    (h : k' ≠ k) : lookupKey (setKey d k v) k' = lookupKey d k' := by
  have hkk : (k == k') = false := by simp [Ne.symm h]
  induction d with
  | nil => simp [setKey, lookupKey, List.find?, hkk]
  | cons p rest ih =>
    by_cases hp : p.1 == k
    · have hpk : p.1 = k := by simpa using hp
      have hpk' : (p.1 == k') = false := by simp [hpk, Ne.symm h]
      simp only [setKey, hp, if_true, lookupKey, List.find?, hkk, hpk'] at ih ⊢
      exact ih
    · by_cases hk2 : p.1 == k'
      · simp [setKey, hp, lookupKey, List.find?, hk2]
      · simpa [setKey, hp, lookupKey, List.find?, hk2] using ih

/-! ### Field Schema Registry (source lines 13-50) -/

/-- One importable attribute (the `PROJECT_RISK_FIELDS` / `VENDOR_RISK_FIELDS`
entry shape). -/
structure FieldDef where
  field : String
  label : String
  required : Bool
  type : String
  options : Option (List String)
deriving Repr, DecidableEq

/-- Risk field definitions for Project Risks. -/
def PROJECT_RISK_FIELDS : List FieldDef := [
  ⟨"risk_name", "Risk name", true, "string", none⟩,
  ⟨"risk_description", "Risk description", true, "string", none⟩,
  ⟨"ai_lifecycle_phase", "AI lifecycle phase", false, "enum",
    some ["Problem definition & planning", "Data collection & processing",
      "Model development & training", "Model validation & testing",
      "Deployment & integration", "Monitoring & maintenance",
      "Decommissioning & retirement"]⟩,
  ⟨"risk_category", "Risk category", false, "enum",
    some ["Strategic risk", "Operational risk", "Compliance risk", "Financial risk",
      "Cybersecurity risk", "Reputational risk", "Legal risk", "Technological risk",
      "Third-party/vendor risk", "Environmental risk", "Human resources risk",
      "Geopolitical risk", "Fraud risk", "Data privacy risk", "Health and safety risk"]⟩,
  ⟨"impact", "Impact", false, "string", none⟩,
  ⟨"likelihood", "Likelihood", false, "enum",
    some ["Rare", "Unlikely", "Possible", "Likely", "Almost Certain"]⟩,
  ⟨"severity", "Severity", false, "enum",
    some ["Negligible", "Minor", "Moderate", "Major", "Catastrophic"]⟩,
  ⟨"review_notes", "Review notes", false, "string", none⟩,
  ⟨"mitigation_status", "Mitigation status", false, "enum",
    some ["Not Started", "In Progress", "Completed", "On Hold", "Deferred",
      "Canceled", "Requires review"]⟩,
  ⟨"current_risk_level", "Current risk level", false, "enum",
    some ["Very Low risk", "Low risk", "Medium risk", "High risk", "Very high risk"]⟩,
  ⟨"deadline", "Deadline", false, "date", none⟩,
  ⟨"mitigation_plan", "Mitigation plan", false, "string", none⟩]

/-- Risk field definitions for Vendor Risks. -/
def VENDOR_RISK_FIELDS : List FieldDef := [
  ⟨"risk_description", "Risk description", true, "string", none⟩,
  ⟨"impact_description", "Impact description", false, "string", none⟩,
  ⟨"likelihood", "Likelihood", false, "enum",
    some ["Very likely", "Likely", "Possible", "Unlikely", "Rare"]⟩,
  ⟨"risk_severity", "Risk severity", false, "enum",
    some ["Very high", "High", "Moderate", "Low", "Very low"]⟩,
  ⟨"action_plan", "Action plan", false, "string", none⟩,
  ⟨"action_owner", "Action owner", false, "string", none⟩]

/-- The enum options of a named field of a schema (empty if none). -/
def fieldOptions (fields : List FieldDef) (k : String) : List String :=
  (((fields.find? (fun f => f.field == k)).bind (fun f => f.options)).getD [])

/-- Risk level calculation matrix (`RISK_MATRIX`). -/
def RISK_MATRIX : List (String × List (String × String)) := [
  ("Almost Certain",
    [("Catastrophic", "Very high risk"), ("Major", "Very high risk"),
     ("Moderate", "High risk"), ("Minor", "Medium risk"), ("Negligible", "Low risk")]),
  ("Likely",
    [("Catastrophic", "Very high risk"), ("Major", "High risk"),
     ("Moderate", "High risk"), ("Minor", "Medium risk"), ("Negligible", "Low risk")]),
  ("Possible",
    [("Catastrophic", "High risk"), ("Major", "High risk"),
     ("Moderate", "Medium risk"), ("Minor", "Low risk"), ("Negligible", "Very low risk")]),
  ("Unlikely",
    [("Catastrophic", "Medium risk"), ("Major", "Medium risk"),
     ("Moderate", "Low risk"), ("Minor", "Low risk"), ("Negligible", "Very low risk")]),
  ("Rare",
    [("Catastrophic", "Low risk"), ("Major", "Low risk"),
     ("Moderate", "Very low risk"), ("Minor", "Very low risk"), ("Negligible", "No risk")])]

/-- The nested dynamic lookup `RISK_MATRIX[likelihood]?.[severity]`. -/
def matrixLookup (l s : String) : Option String :=
  match lookupKey RISK_MATRIX l with
  | none => none
  | some row => lookupKey row s

/-- The function `calculateRiskLevel(likelihood, severity)` (source lines 47-50):
falsy inputs yield `null`; otherwise the matrix lookup (`|| null`). -/
def calculateRiskLevel (likelihood severity : Option String) : Option String :=
  match orNull likelihood, orNull severity with
  | some l, some s =>
    match matrixLookup l s with
    | some v => if v = "" then none else some v
    | none => none
  | _, _ => none

/-! ### File Decoder (source lines 202-243, after the XLSX library has
produced the raw cell grid `sheet_to_json(sheet, { header: 1 })`; the
library itself is an external collaborator, so the embedding starts at the
raw string grid, with every cell already stringified). -/

/-- One decoded spreadsheet row: `rowIndex` is the 1-based file position
(header row is row 1, so data rows start at 2), `data` maps trimmed header
to trimmed cell text. -/
structure ParsedRow where
  rowIndex : Nat
  data : List (String × String)
deriving Repr, DecidableEq

/-- The successful decode payload. -/
structure ParseOutput where
  columns : List String
  rowCount : Nat
  allRows : List ParsedRow
deriving Repr, DecidableEq

/-- Row conversion `data[header] = String(row[colIndex] ?? "").trim()` over all headers. -/
def buildRowData (headers row : List String) : List (String × String) :=
  (headers.enum).foldl (fun d ci => setKey d ci.2 (jsTrim (row.getD ci.1 ""))) []

/-- The decode pipeline from the raw cell grid: empty-file check, header
extraction, per-row conversion, blank-row filter. -/
def parseSheet (rawData : List (List String)) : Except String ParseOutput :=
  match rawData with
  | [] => Except.error "File is empty"
  | headerRow :: rest =>
    let headers := headerRow.map (fun h => jsTrim h)
    let rows :=
      ((rest.enum.map (fun ir => ParsedRow.mk (ir.1 + 2) (buildRowData headers ir.2))).filter
        (fun pr => pr.data.any (fun kv => kv.2.length > 0)))
    Except.ok ⟨headers, rows.length, rows⟩

/-! ### Mapping & Validation Engine (source lines 254-341) -/

/-- One column→field mapping entry. -/
structure Mapping where
  sourceColumn : String
  targetField : String
deriving Repr, DecidableEq

/-- A validated row (`results` entry of the validate endpoint, and the
`validatedRows` input shape of check-duplicates and import). -/
structure ValidatedRow where
  rowIndex : Nat
  isValid : Bool
  errors : List String
  data : List (String × Option String)
deriving Repr, DecidableEq

/-- Mapping application `mappedData[m.targetField] = row.data[m.sourceColumn] || null` for every
mapping entry in order. -/
def applyMapping (mapping : List Mapping) (rowData : List (String × String)) :
    List (String × Option String) :=
  mapping.foldl (fun md m => setKey md m.targetField (orNull (lookupKey rowData m.sourceColumn))) []

/-- Required-field check: one `<label> is required` message per required
field whose mapped value is falsy. -/
def requiredErrors (fields : List FieldDef) (md : List (String × Option String)) :
    List String :=
  ((fields.filter (fun f => f.required)).filter
      (fun f => (orNull (lookupField md f.field)).isNone)).map
    (fun f => f.label ++ " is required")

/-- Enum check: a truthy mapped value outside the field's option list
produces a `must be one of` message. -/
def enumErrors (fields : List FieldDef) (md : List (String × Option String)) :
    List String :=
  (fields.filter (fun f => f.type == "enum")).filterMap (fun f =>
    match orNull (lookupField md f.field) with
    | none => none
    | some v =>
      match f.options with
      | none => none
      | some opts =>
        if opts.contains v then none
        else some (f.label ++ " must be one of: " ++ String.intercalate ", " opts))

/-- Date check: every date field with a truthy value is parsed; failures
append an error, successes rewrite the value in place to the normalized
form.  The calendar parse (`new Date(value)` / `toISOString`) is the
JavaScript runtime's and is passed in as `parseDate`. -/
def applyDates (parseDate : String → Option String) (fields : List FieldDef)
    (md : List (String × Option String)) :
    List String × List (String × Option String) :=
  (fields.filter (fun f => f.type == "date")).foldl
    (fun acc f =>
      match orNull (lookupField acc.2 f.field) with
      | none => acc
      | some v =>
        match parseDate v with
        | none => (acc.1 ++ [f.label ++ " must be a valid date"], acc.2)
        | some iso => (acc.1, setKey acc.2 f.field (some iso)))
    ([], md)

/-- Risk-level auto-calculation (source lines 301-318): when enabled, the
project path stores a hit under `risk_level_autocalculated`, the vendor
path under `risk_level`; a lookup miss leaves the bag untouched. -/
def applyAutoCalc (autoCalculate : Bool) (riskType : String)
    (md : List (String × Option String)) : List (String × Option String) :=
  if autoCalculate then
    if riskType = "project" then
      match calculateRiskLevel (lookupField md "likelihood") (lookupField md "severity") with
      | some lvl => setKey md "risk_level_autocalculated" (some lvl)
      | none => md
    else if riskType = "vendor" then
      match calculateRiskLevel (lookupField md "likelihood") (lookupField md "risk_severity") with
      | some lvl => setKey md "risk_level" (some lvl)
      | none => md
    else md
  else md

/-- Per-row validation: mapping application, required/enum/date checks,
auto-calculation; `isValid` iff no error accumulated. -/
def validateRow (parseDate : String → Option String) (autoCalculate : Bool)
    (riskType : String) (mapping : List Mapping) (row : ParsedRow) : ValidatedRow :=
  let fields := if riskType = "vendor" then VENDOR_RISK_FIELDS else PROJECT_RISK_FIELDS
  let md0 := applyMapping mapping row.data
  let errs1 := requiredErrors fields md0
  let errs2 := enumErrors fields md0
  let dres := applyDates parseDate fields md0
  let allErrs := errs1 ++ errs2 ++ dres.1
  { rowIndex := row.rowIndex,
    isValid := allErrs.isEmpty,
    errors := allErrs,
    data := applyAutoCalc autoCalculate riskType dres.2 }

/-! ### Tenant database model

The tenant schema's `risks` and `vendorRisks` tables and the two junction
tables, with the columns this plugin reads or writes.  String columns the
source can write as SQL `NULL` are `Option String`. -/

structure ProjectRisk where
  id : Nat
  risk_name : Option String
  ai_lifecycle_phase : String
  risk_description : Option String
  risk_category : String
  impact : String
  assessment_mapping : String
  controls_mapping : String
  likelihood : String
  severity : String
  risk_level_autocalculated : String
  review_notes : Option String
  mitigation_status : String
  current_risk_level : String
  deadline : String
  mitigation_plan : String
  implementation_strategy : String
  mitigation_evidence_document : String
  likelihood_mitigation : String
  risk_severity : String
  final_risk_level : String
  approval_status : String
  date_of_assessment : String
  is_deleted : Bool
  updated_at : Option String
deriving Repr, DecidableEq

structure VendorRisk where
  id : Nat
  vendor_id : Nat
  risk_description : Option String
  impact_description : Option String
  likelihood : Option String
  risk_severity : Option String
  action_plan : Option String
  action_owner : Option String
  risk_level : Option String
  is_deleted : Bool
  updated_at : Option String
deriving Repr, DecidableEq

structure DB where
  risks : List ProjectRisk
  vendorRisks : List VendorRisk
  projectsRisks : List (Nat × Nat)
  frameworksRisks : List (Nat × Nat)
  nextRiskId : Nat
  nextVendorRiskId : Nat
  nowISO : String
deriving Repr, DecidableEq

/-- The query `SELECT ... FROM risks WHERE risk_name = :nm AND is_deleted = false LIMIT 1`. -/
def findProjectRisk (db : DB) (nm : String) : Option ProjectRisk :=
  db.risks.find? (fun r => r.risk_name == some nm && !r.is_deleted)

/-- The query `SELECT ... FROM vendorRisks WHERE risk_description = :d AND is_deleted = false LIMIT 1`
(the check-duplicates key: description only, no vendor id). -/
def findVendorRiskByDesc (db : DB) (desc : String) : Option VendorRisk :=
  db.vendorRisks.find? (fun r => r.risk_description == some desc && !r.is_deleted)

/-- The query `SELECT id FROM vendorRisks WHERE risk_description = :d AND vendor_id = :v AND is_deleted = false LIMIT 1`
(the import overwrite key). -/
def findVendorRisk (db : DB) (desc : String) (vid : Nat) : Option VendorRisk :=
  db.vendorRisks.find?
    (fun r => r.risk_description == some desc && r.vendor_id == vid && !r.is_deleted)

/-! ### Duplicate Detector (source lines 352-441) -/

structure DuplicateResult where
  rowIndex : Nat
  existingRiskId : Option Nat
  existingRiskName : Option String
  isDuplicate : Bool
deriving Repr, DecidableEq

structure DupSummary where
  total : Nat
  duplicates : Nat
  unique : Nat
deriving Repr, DecidableEq

/-- Per-row duplicate check.  The second component is the list of
natural-key lookups the row issued against the database (empty when the
source performs no query for the row). -/
def checkRow (db : DB) (riskType : String) (row : ValidatedRow) :
    DuplicateResult × List String :=
  if !row.isValid then
    (⟨row.rowIndex, none, none, false⟩, [])
  else if riskType = "project" then
    match orNull (lookupField row.data "risk_name") with
    | none => (⟨row.rowIndex, none, none, false⟩, [])
    | some nm =>
      match findProjectRisk db nm with
      | none => (⟨row.rowIndex, none, none, false⟩, [nm])
      | some r => (⟨row.rowIndex, some r.id, orNull r.risk_name, true⟩, [nm])
  else
    match orNull (lookupField row.data "risk_description") with
    | none => (⟨row.rowIndex, none, none, false⟩, [])
    | some desc =>
      match findVendorRiskByDesc db desc with
      | none => (⟨row.rowIndex, none, none, false⟩, [desc])
      | some r => (⟨row.rowIndex, some r.id, orNull r.risk_description, true⟩, [desc])

/-- The check-duplicates endpoint: tenant guard, per-row checks, summary
(`unique = total - duplicates`).  The third component of the payload is the
concatenated query log. -/
def checkDuplicates (tenantId : Option String) (validatedRows : List ValidatedRow)
    (riskType : String) (db : DB) :
    Except String (List DuplicateResult × DupSummary × List String) :=
  match tenantId with
  | none => Except.error "Unauthorized - tenant not found"
  | some _ =>
    let step := validatedRows.map (checkRow db riskType)
    let dups := step.map (fun p => p.1)
    let dupCount := (dups.filter (fun d => d.isDuplicate)).length
    Except.ok (dups, ⟨dups.length, dupCount, dups.length - dupCount⟩,
      (step.map (fun p => p.2)).flatten)

/-! ### Transactional Importer (source lines 444-762) -/

/-- Optional link target `{ type, id }`. -/
structure LinkTo where
  type : String
  id : Option Nat
deriving Repr, DecidableEq

/-- One per-row import outcome as pushed onto `results`. -/
structure Outcome where
  rowIndex : Nat
  success : Bool
  action : String
  riskId : Option Nat
  error : Option String
deriving Repr, DecidableEq

/-- Action resolution `duplicateActions[row.rowIndex] || "create"`. -/
def resolveAction (duplicateActions : List (Nat × String)) (rowIndex : Nat) : String :=
  match (duplicateActions.find? (fun p => p.1 == rowIndex)).map (fun p => p.2) with
  | none => "create"
  | some a => if a = "" then "create" else a

/-- The vendor-path guard `!linkTo?.id || linkTo.type !== "vendor"`
(JS numeric truthiness: a missing or zero id is falsy). -/
def vendorLinkInvalid (linkTo : Option LinkTo) : Bool :=
  match linkTo with
  | none => true
  | some l => (match l.id with | none => true | some i => i == 0) || l.type != "vendor"

/-- A truthy link id (`linkTo.id` used as a condition). -/
def linkTruthyId (l : LinkTo) : Option Nat :=
  match l.id with
  | none => none
  | some i => if i = 0 then none else some i

/-- The project-side `UPDATE ... SET x = COALESCE(:x, x) ... updated_at = NOW()`:
a falsy mapped value keeps the stored one; `risk_category` is wrapped in a
Postgres array literal when written. -/
def applyProjectOverwrite (data : List (String × Option String)) (nowISO : String)
    (r : ProjectRisk) : ProjectRisk :=
  { r with
    ai_lifecycle_phase := (orNull (lookupField data "ai_lifecycle_phase")).getD r.ai_lifecycle_phase,
    risk_description :=
      match orNull (lookupField data "risk_description") with
      | some v => some v
      | none => r.risk_description,
    risk_category :=
      match orNull (lookupField data "risk_category") with
      | some v => "\x7b" ++ v ++ "\x7d"
      | none => r.risk_category,
    impact := (orNull (lookupField data "impact")).getD r.impact,
    likelihood := (orNull (lookupField data "likelihood")).getD r.likelihood,
    severity := (orNull (lookupField data "severity")).getD r.severity,
    risk_level_autocalculated :=
      (orNull (lookupField data "risk_level_autocalculated")).getD r.risk_level_autocalculated,
    mitigation_status := (orNull (lookupField data "mitigation_status")).getD r.mitigation_status,
    current_risk_level := (orNull (lookupField data "current_risk_level")).getD r.current_risk_level,
    mitigation_plan := (orNull (lookupField data "mitigation_plan")).getD r.mitigation_plan,
    updated_at := some nowISO }

/-- The project-side `INSERT ... RETURNING id` with the source's default
values for absent fields. -/
def insertProjectRisk (db : DB) (data : List (String × Option String)) : ProjectRisk :=
  { id := db.nextRiskId,
    risk_name := lookupField data "risk_name",
    ai_lifecycle_phase :=
      (orNull (lookupField data "ai_lifecycle_phase")).getD "Problem definition & planning",
    risk_description := lookupField data "risk_description",
    risk_category :=
      match orNull (lookupField data "risk_category") with
      | some v => "\x7b" ++ v ++ "\x7d"
      | none => "\x7bOperational risk\x7d",
    impact := (orNull (lookupField data "impact")).getD "To be assessed",
    assessment_mapping := "",
    controls_mapping := "",
    likelihood := (orNull (lookupField data "likelihood")).getD "Possible",
    severity := (orNull (lookupField data "severity")).getD "Moderate",
    risk_level_autocalculated :=
      (orNull (lookupField data "risk_level_autocalculated")).getD "Medium risk",
    review_notes := orNull (lookupField data "review_notes"),
    mitigation_status := (orNull (lookupField data "mitigation_status")).getD "Not Started",
    current_risk_level := (orNull (lookupField data "current_risk_level")).getD "Medium risk",
    deadline := (orNull (lookupField data "deadline")).getD db.nowISO,
    mitigation_plan := (orNull (lookupField data "mitigation_plan")).getD "To be defined",
    implementation_strategy := "",
    mitigation_evidence_document := "",
    likelihood_mitigation := "Possible",
    risk_severity := "Moderate",
    final_risk_level := "",
    approval_status := "Pending",
    date_of_assessment := db.nowISO,
    is_deleted := false,
    updated_at := none }

/-- Junction-table inserts for a project or framework link target. -/
def applyLinks (linkTo : Option LinkTo) (riskId : Nat) (db : DB) : DB :=
  match linkTo with
  | none => db
  | some l =>
    match linkTruthyId l with
    | none => db
    | some i =>
      if l.type = "project" then
        { db with projectsRisks := db.projectsRisks ++ [(i, riskId)] }
      else if l.type = "framework" then
        { db with frameworksRisks := db.frameworksRisks ++ [(i, riskId)] }
      else db

/-- The overwrite pre-query of the project branch: only an `overwrite`
action with a truthy `risk_name` issues the natural-key `SELECT`. -/
def overwriteHitProject (db : DB) (data : List (String × Option String))
    (action : String) : Option ProjectRisk :=
  if action = "overwrite" then
    match orNull (lookupField data "risk_name") with
    | some nm => findProjectRisk db nm
    | none => none
  else none

/-- The project branch of the per-row try block (source lines 492-625). -/
def processProjectRow (db : DB) (data : List (String × Option String)) (rowIndex : Nat)
    (action : String) (linkTo : Option LinkTo) : Outcome × DB :=
  match overwriteHitProject db data action with
  | some existing =>
    let updated :=
      db.risks.map (fun r => if r.id = existing.id then applyProjectOverwrite data db.nowISO r else r)
    (⟨rowIndex, true, "overwritten", some existing.id, none⟩, { db with risks := updated })
  | none =>
    let newRisk := insertProjectRisk db data
    let db1 := { db with risks := db.risks ++ [newRisk], nextRiskId := db.nextRiskId + 1 }
    (⟨rowIndex, true, "created", some newRisk.id, none⟩, applyLinks linkTo newRisk.id db1)

/-- The vendor-side `UPDATE ... SET x = :x ... updated_at = NOW()`:
every updatable field is written directly from the mapped data (a falsy
mapped value stores `NULL`). -/
def applyVendorOverwrite (data : List (String × Option String)) (nowISO : String)
    (r : VendorRisk) : VendorRisk :=
  { r with
    impact_description := orNull (lookupField data "impact_description"),
    likelihood := orNull (lookupField data "likelihood"),
    risk_severity := orNull (lookupField data "risk_severity"),
    action_plan := orNull (lookupField data "action_plan"),
    action_owner := orNull (lookupField data "action_owner"),
    risk_level := orNull (lookupField data "risk_level"),
    updated_at := some nowISO }

/-- The vendor-side `INSERT ... RETURNING id`. -/
def insertVendorRisk (db : DB) (vid : Nat) (data : List (String × Option String)) : VendorRisk :=
  { id := db.nextVendorRiskId,
    vendor_id := vid,
    risk_description := lookupField data "risk_description",
    impact_description := orNull (lookupField data "impact_description"),
    likelihood := orNull (lookupField data "likelihood"),
    risk_severity := orNull (lookupField data "risk_severity"),
    action_plan := orNull (lookupField data "action_plan"),
    action_owner := orNull (lookupField data "action_owner"),
    risk_level := orNull (lookupField data "risk_level"),
    is_deleted := false,
    updated_at := none }

/-- The overwrite pre-query of the vendor branch: only an `overwrite`
action with a truthy `risk_description` issues the natural-key `SELECT`
(keyed on description and vendor id). -/
def overwriteHitVendor (db : DB) (data : List (String × Option String))
    (action : String) (vid : Nat) : Option VendorRisk :=
  if action = "overwrite" then
    match orNull (lookupField data "risk_description") with
    | some desc => findVendorRisk db desc vid
    | none => none
  else none

/-- The vendor branch of the per-row try block after the link guard
(source lines 641-721). -/
def processVendorRow (db : DB) (data : List (String × Option String)) (rowIndex : Nat)
    (action : String) (vid : Nat) : Outcome × DB :=
  match overwriteHitVendor db data action vid with
  | some existing =>
    let updated :=
      db.vendorRisks.map (fun r => if r.id = existing.id then applyVendorOverwrite data db.nowISO r else r)
    (⟨rowIndex, true, "overwritten", some existing.id, none⟩, { db with vendorRisks := updated })
  | none =>
    let newRisk := insertVendorRisk db vid data
    let db1 := { db with vendorRisks := db.vendorRisks ++ [newRisk], nextVendorRiskId := db.nextVendorRiskId + 1 }
    (⟨rowIndex, true, "created", some newRisk.id, none⟩, db1)

/-- Per-row import processing: the invalid-row short-circuit, the skip
short-circuit, then the try block.  `exc row.rowIndex = some msg` means the
row's first database query raises an exception with message `msg`; the
catch clause turns it into an `error` outcome for that row alone. -/
def importRow (exc : Nat → Option String) (duplicateActions : List (Nat × String))
    (riskType : String) (linkTo : Option LinkTo) (db : DB) (row : ValidatedRow) :
    Outcome × DB :=
  if !row.isValid then
    (⟨row.rowIndex, false, "error", none, some (String.intercalate "; " row.errors)⟩, db)
  else
    let action := resolveAction duplicateActions row.rowIndex
    if action = "skip" then
      (⟨row.rowIndex, true, "skipped", none, none⟩, db)
    else if riskType = "project" then
      match exc row.rowIndex with
      | some msg => (⟨row.rowIndex, false, "error", none, some msg⟩, db)
      | none => processProjectRow db row.data row.rowIndex action linkTo
    else
      if vendorLinkInvalid linkTo then
        (⟨row.rowIndex, false, "error", none,
          some "Vendor must be selected for vendor risk import"⟩, db)
      else
        match exc row.rowIndex with
        | some msg => (⟨row.rowIndex, false, "error", none, some msg⟩, db)
        | none =>
          processVendorRow db row.data row.rowIndex action
            ((linkTo.bind LinkTo.id).getD 0)

/-- The sequential per-row loop of the import endpoint. -/
def importLoop (exc : Nat → Option String) (duplicateActions : List (Nat × String))
    (riskType : String) (linkTo : Option LinkTo) (db : DB) :
    List ValidatedRow → List Outcome × DB
  | [] => ([], db)
  | r :: rs =>
    let step := importRow exc duplicateActions riskType linkTo db r
    let rest := importLoop exc duplicateActions riskType linkTo step.2 rs
    (step.1 :: rest.1, rest.2)

structure ImportSummary where
  total : Nat
  success : Nat
  created : Nat
  overwritten : Nat
  skipped : Nat
  errors : Nat
deriving Repr, DecidableEq

/-- The aggregate counters computed from `results` before responding. -/
def summarize (results : List Outcome) : ImportSummary :=
  { total := results.length,
    success := (results.filter (fun r => r.success)).length,
    created := (results.filter (fun r => r.action == "created")).length,
    overwritten := (results.filter (fun r => r.action == "overwritten")).length,
    skipped := (results.filter (fun r => r.action == "skipped")).length,
    errors := (results.filter (fun r => r.action == "error")).length }

/-- The committed import response: per-row ledger, summary, and the
database state the transaction commits. -/
structure ImportResponse where
  results : List Outcome
  summary : ImportSummary
  db : DB
deriving Repr, DecidableEq

/-- The import endpoint: a transaction is opened, a missing tenant context
rolls it back and fails the whole request (no write persists — the caller's
database state is unchanged), otherwise every row is processed and the
transaction commits. -/
def importCall (tenantId : Option String) (validatedRows : List ValidatedRow)
    (duplicateActions : List (Nat × String)) (riskType : String)
    (linkTo : Option LinkTo) (exc : Nat → Option String) (db : DB) :
    Except String ImportResponse :=
  match tenantId with
  | none => Except.error "Unauthorized - tenant not found"
  | some _ =>
    let looped := importLoop exc duplicateActions riskType linkTo db validatedRows
    Except.ok ⟨looped.1, summarize looped.1, looped.2⟩

/-! ### Theorems -/

/-- A hit in the matrix is returned unchanged by `calculateRiskLevel`
(matrix keys and values are all non-empty, so no truthiness collapse
occurs on a hit). -/
theorem calculate_of_matrixLookup (l s v : String) (h : matrixLookup l s = some v) :
    calculateRiskLevel (some l) (some s) = some v := by
  unfold matrixLookup lookupKey at h
  rcases hp : RISK_MATRIX.find? (fun p => p.1 == l) with _ | p
  · rw [hp] at h; cases h
  · rw [hp] at h
    have hpl : p.1 = l := by simpa using List.find?_some hp
    have hmem : p ∈ RISK_MATRIX := List.mem_of_find?_eq_some hp
    simp only [Option.map_some'] at h
    rcases hq : p.2.find? (fun q => q.1 == s) with _ | q
    · rw [hq] at h; cases h
    · rw [hq] at h
      have hqs : q.1 = s := by simpa using List.find?_some hq
      have hqmem : q ∈ p.2 := List.mem_of_find?_eq_some hq
      have hv : q.2 = v := by simpa using h
      subst hpl; subst hqs; subst hv
      simp only [RISK_MATRIX, List.mem_cons, List.not_mem_nil, or_false] at hmem
      rcases hmem with h1 | h1 | h1 | h1 | h1 <;> subst h1 <;>
        simp only [List.mem_cons, List.not_mem_nil, or_false] at hqmem <;>
        rcases hqmem with h2 | h2 | h2 | h2 | h2 <;> subst h2 <;> decide

/-- C6: the risk-level lookup is a pure function of its two inputs:
any falsy input gives no level, a matrix miss gives no level, a matrix hit
gives exactly the stored label; "Almost Certain" × "Catastrophic" is
"Very high risk" and "Rare" × "Negligible" is "No risk". -/
theorem riskLevel_lookup_spec :
    calculateRiskLevel (some "Almost Certain") (some "Catastrophic") = some "Very high risk" ∧
    calculateRiskLevel (some "Rare") (some "Negligible") = some "No risk" ∧
    (∀ s, calculateRiskLevel none s = none) ∧
    (∀ s, calculateRiskLevel (some "") s = none) ∧
    (∀ l, calculateRiskLevel l none = none) ∧
    (∀ l, calculateRiskLevel l (some "") = none) ∧
    (∀ l s, matrixLookup l s = none → calculateRiskLevel (some l) (some s) = none) ∧
    (∀ l s v, matrixLookup l s = some v → calculateRiskLevel (some l) (some s) = some v) := by
  refine ⟨by decide, by decide, ?_, ?_, ?_, ?_, ?_, ?_⟩
  · intro s; rfl
  · intro s; rfl
  · intro l; cases h : orNull l <;> simp [calculateRiskLevel, h, orNull]
  · intro l; cases h : orNull l <;> simp [calculateRiskLevel, h, orNull]
  · intro l s h
    by_cases hl : l = ""
    · simp [calculateRiskLevel, orNull, hl]
    · by_cases hs : s = ""
      · simp [calculateRiskLevel, orNull, hl, hs]
      · simp [calculateRiskLevel, orNull, hl, hs, h]
  · exact calculate_of_matrixLookup

/-- Witness for C6: instantiating the matrix-hit clause at a
concrete cell. -/
theorem riskLevel_lookup_spec_witness :
    calculateRiskLevel (some "Likely") (some "Moderate") = some "High risk" :=
  riskLevel_lookup_spec.2.2.2.2.2.2.2 "Likely" "Moderate" "High risk" (by decide)

/-- C4 counterexample: a sheet holding only a header row (zero data rows
after header extraction) is decoded successfully with `rowCount = 0`; the
decoder does not fail with the empty-file error there. -/
theorem parse_headerOnly_succeeds :
    parseSheet [["Risk name", "Risk description"]] =
      Except.ok ⟨["Risk name", "Risk description"], 0, []⟩ := by
  rfl

/-- C4 (amended): the decoder fails with the empty-file error exactly when
the raw grid has no rows at all (not even a header row); whenever a header
row is present it succeeds, even with zero surviving data rows, reporting
`rowCount` = the number of surviving rows. -/
theorem parse_empty_error_iff_no_rows (rawData : List (List String)) :
    (parseSheet rawData = Except.error "File is empty" ↔ rawData = []) ∧
    (rawData ≠ [] → ∃ out, parseSheet rawData = Except.ok out ∧
      out.rowCount = out.allRows.length) := by
  cases rawData <;> simp [parseSheet]

/-- Witness for the amended C4 at a header-only sheet. -/
theorem parse_empty_error_iff_no_rows_witness :
    ([["Risk name"]] : List (List String)) ≠ [] ∧
    ∃ out, parseSheet [["Risk name"]] = Except.ok out ∧
      out.rowCount = out.allRows.length :=
  ⟨by decide, (parse_empty_error_iff_no_rows [["Risk name"]]).2 (by decide)⟩

/-- C8: a valid row whose resolved duplicate action is `skip` yields exactly
the `skipped` outcome with `success = true` and leaves the database
untouched, for any risk type and any link target (including a vendor import
with no link target: the skip short-circuit runs before the vendor guard). -/
theorem skip_action_no_write (exc : Nat → Option String) (dA : List (Nat × String))
    (riskType : String) (linkTo : Option LinkTo) (db : DB) (row : ValidatedRow)
    (hv : row.isValid = true) (ha : resolveAction dA row.rowIndex = "skip") :
    importRow exc dA riskType linkTo db row =
      (⟨row.rowIndex, true, "skipped", none, none⟩, db) := by
  simp [importRow, hv, ha]

/-- Witness for C8: a vendor-type skip row with no link target. -/
theorem skip_action_no_write_witness :
    importRow (fun _ => none) [(2, "skip")] "vendor" none
        ⟨[], [], [], [], 1, 1, "T0"⟩ ⟨2, true, [], []⟩ =
      (⟨2, true, "skipped", none, none⟩, ⟨[], [], [], [], 1, 1, "T0"⟩) :=
  skip_action_no_write _ _ _ _ _ _ rfl rfl

/-- C7: in a vendor-type import, a valid non-skip row fails with the
`error` outcome "Vendor must be selected for vendor risk import" whenever
the link target is absent, has no id, or has a type other than `vendor`,
and the database is left untouched for that row. -/
theorem vendor_link_required (exc : Nat → Option String) (dA : List (Nat × String))
    (linkTo : Option LinkTo) (db : DB) (row : ValidatedRow)
    (hv : row.isValid = true) (hns : resolveAction dA row.rowIndex ≠ "skip")
    (hl : linkTo = none ∨ ∃ l, linkTo = some l ∧ (l.id = none ∨ l.type ≠ "vendor")) :
    importRow exc dA "vendor" linkTo db row =
      (⟨row.rowIndex, false, "error", none,
        some "Vendor must be selected for vendor risk import"⟩, db) := by
  have hinv : vendorLinkInvalid linkTo = true := by
    rcases hl with h | ⟨l, hlk, h2⟩
    · simp [vendorLinkInvalid, h]
    · subst hlk
      rcases h2 with h2 | h2
      · simp [vendorLinkInvalid, h2]
      · simp [vendorLinkInvalid, h2]
  simp [importRow, hv, hns, hinv]

/-- Witness for C7: a valid vendor row with the link target omitted. -/
theorem vendor_link_required_witness :
    importRow (fun _ => none) [] "vendor" none ⟨[], [], [], [], 1, 1, "T0"⟩
        ⟨2, true, [], [("risk_description", some "Leak")]⟩ =
      (⟨2, false, "error", none,
        some "Vendor must be selected for vendor risk import"⟩,
        ⟨[], [], [], [], 1, 1, "T0"⟩) :=
  vendor_link_required _ _ _ _ _ rfl (by decide) (Or.inl rfl)

/-- C5: a valid row with action `overwrite` and no natural-key match falls
through to the create path: the outcome is `created` carrying the next
fresh identifier, never `error` merely because no match exists — for the
project type, and for the vendor type once a valid vendor link target is
present. -/
theorem overwrite_fallback_to_create (exc : Nat → Option String)
    (dA : List (Nat × String)) (linkTo : Option LinkTo) (db : DB) (row : ValidatedRow)
    (hv : row.isValid = true) (ha : resolveAction dA row.rowIndex = "overwrite")
    (hexc : exc row.rowIndex = none) :
    ((∀ nm, orNull (lookupField row.data "risk_name") = some nm →
        findProjectRisk db nm = none) →
      (importRow exc dA "project" linkTo db row).1 =
        ⟨row.rowIndex, true, "created", some db.nextRiskId, none⟩) ∧
    (vendorLinkInvalid linkTo = false →
      (∀ desc, orNull (lookupField row.data "risk_description") = some desc →
        findVendorRisk db desc ((linkTo.bind LinkTo.id).getD 0) = none) →
      (importRow exc dA "vendor" linkTo db row).1 =
        ⟨row.rowIndex, true, "created", some db.nextVendorRiskId, none⟩) := by
  have hns : resolveAction dA row.rowIndex ≠ "skip" := by rw [ha]; decide
  constructor
  · intro hno
    rcases h : orNull (lookupField row.data "risk_name") with _ | nm
    · simp [importRow, hv, hns, hexc, processProjectRow, overwriteHitProject, ha, h, insertProjectRisk]
    · simp [importRow, hv, hns, hexc, processProjectRow, overwriteHitProject, ha, h, hno nm h, insertProjectRisk]
  · intro hlink hno
    rcases h : orNull (lookupField row.data "risk_description") with _ | desc
    · simp [importRow, hv, hns, hexc, hlink, processVendorRow, overwriteHitVendor, ha, h, insertVendorRisk]
    · simp [importRow, hv, hns, hexc, hlink, processVendorRow, overwriteHitVendor, ha, h,
        hno desc h, insertVendorRisk]

/-- Witness for C5: a project-type overwrite row against an empty tenant
store creates a new record with id 1. -/
theorem overwrite_fallback_to_create_witness :
    (importRow (fun _ => none) [(2, "overwrite")] "project" none
        ⟨[], [], [], [], 1, 1, "T0"⟩
        ⟨2, true, [], [("risk_name", some "Server outage"),
          ("risk_description", some "DB unreachable")]⟩).1 =
      ⟨2, true, "created", some 1, none⟩ :=
  (overwrite_fallback_to_create (fun _ => none) [(2, "overwrite")] none
      ⟨[], [], [], [], 1, 1, "T0"⟩
      ⟨2, true, [], [("risk_name", some "Server outage"),
        ("risk_description", some "DB unreachable")]⟩
      rfl rfl rfl).1 (fun _ _ => rfl)

/-- C2 counterexample: a vendor-type overwrite whose mapped data omits
`impact_description` does NOT preserve the prior stored value — the stored
`some "Bad"` is replaced by `NULL` (the vendor update writes every field
directly, with no coalesce). -/
theorem vendor_overwrite_not_coalesce :
    (importRow (fun _ => none) [(2, "overwrite")] "vendor" (some ⟨"vendor", some 7⟩)
        ⟨[], [⟨1, 7, some "Leak", some "Bad", some "Likely", some "Moderate", some "Plan",
          some "Owner", some "High", false, none⟩], [], [], 1, 2, "T0"⟩
        ⟨2, true, [], [("risk_description", some "Leak")]⟩) =
      (⟨2, true, "overwritten", some 1, none⟩,
        ⟨[], [⟨1, 7, some "Leak", none, none, none, none, none, none, false, some "T0"⟩],
          [], [], 1, 2, "T0"⟩) := by
  rfl

/-- C2 (amended): for a valid `overwrite` row with an existing natural-key
match the outcome is `overwritten` with the existing identifier and the
updated-timestamp is touched for both risk types; but only the `project`
update is coalesce-style (mapped-null fields keep their prior stored
values), while the `vendor` update writes all six updatable fields directly
from the mapped data, so absent/null mapped values replace prior stored
values with null. -/
theorem overwrite_update_semantics (exc : Nat → Option String)
    (dA : List (Nat × String)) (linkTo : Option LinkTo) (db : DB) (row : ValidatedRow)
    (hv : row.isValid = true) (ha : resolveAction dA row.rowIndex = "overwrite")
    (hexc : exc row.rowIndex = none) :
    (∀ nm ex, orNull (lookupField row.data "risk_name") = some nm →
      findProjectRisk db nm = some ex →
      importRow exc dA "project" linkTo db row =
        (⟨row.rowIndex, true, "overwritten", some ex.id, none⟩,
          { db with risks := db.risks.map (fun r =>
              if r.id = ex.id then applyProjectOverwrite row.data db.nowISO r else r) })) ∧
    (∀ r : ProjectRisk,
      (orNull (lookupField row.data "ai_lifecycle_phase") = none →
        (applyProjectOverwrite row.data db.nowISO r).ai_lifecycle_phase = r.ai_lifecycle_phase) ∧
      (orNull (lookupField row.data "risk_description") = none →
        (applyProjectOverwrite row.data db.nowISO r).risk_description = r.risk_description) ∧
      (orNull (lookupField row.data "risk_category") = none →
        (applyProjectOverwrite row.data db.nowISO r).risk_category = r.risk_category) ∧
      (orNull (lookupField row.data "impact") = none →
        (applyProjectOverwrite row.data db.nowISO r).impact = r.impact) ∧
      (orNull (lookupField row.data "likelihood") = none →
        (applyProjectOverwrite row.data db.nowISO r).likelihood = r.likelihood) ∧
      (orNull (lookupField row.data "severity") = none →
        (applyProjectOverwrite row.data db.nowISO r).severity = r.severity) ∧
      (orNull (lookupField row.data "risk_level_autocalculated") = none →
        (applyProjectOverwrite row.data db.nowISO r).risk_level_autocalculated =
          r.risk_level_autocalculated) ∧
      (orNull (lookupField row.data "mitigation_status") = none →
        (applyProjectOverwrite row.data db.nowISO r).mitigation_status = r.mitigation_status) ∧
      (orNull (lookupField row.data "current_risk_level") = none →
        (applyProjectOverwrite row.data db.nowISO r).current_risk_level = r.current_risk_level) ∧
      (orNull (lookupField row.data "mitigation_plan") = none →
        (applyProjectOverwrite row.data db.nowISO r).mitigation_plan = r.mitigation_plan) ∧
      (applyProjectOverwrite row.data db.nowISO r).updated_at = some db.nowISO ∧
      (applyProjectOverwrite row.data db.nowISO r).id = r.id ∧
      (applyProjectOverwrite row.data db.nowISO r).risk_name = r.risk_name ∧
      (applyProjectOverwrite row.data db.nowISO r).review_notes = r.review_notes ∧
      (applyProjectOverwrite row.data db.nowISO r).deadline = r.deadline) ∧
    (∀ desc ex, vendorLinkInvalid linkTo = false →
      orNull (lookupField row.data "risk_description") = some desc →
      findVendorRisk db desc ((linkTo.bind LinkTo.id).getD 0) = some ex →
      importRow exc dA "vendor" linkTo db row =
        (⟨row.rowIndex, true, "overwritten", some ex.id, none⟩,
          { db with vendorRisks := db.vendorRisks.map (fun r =>
              if r.id = ex.id then applyVendorOverwrite row.data db.nowISO r else r) })) ∧
    (∀ r : VendorRisk,
      (applyVendorOverwrite row.data db.nowISO r).impact_description =
        orNull (lookupField row.data "impact_description") ∧
      (applyVendorOverwrite row.data db.nowISO r).likelihood =
        orNull (lookupField row.data "likelihood") ∧
      (applyVendorOverwrite row.data db.nowISO r).risk_severity =
        orNull (lookupField row.data "risk_severity") ∧
      (applyVendorOverwrite row.data db.nowISO r).action_plan =
        orNull (lookupField row.data "action_plan") ∧
      (applyVendorOverwrite row.data db.nowISO r).action_owner =
        orNull (lookupField row.data "action_owner") ∧
      (applyVendorOverwrite row.data db.nowISO r).risk_level =
        orNull (lookupField row.data "risk_level") ∧
      (applyVendorOverwrite row.data db.nowISO r).updated_at = some db.nowISO ∧
      (applyVendorOverwrite row.data db.nowISO r).id = r.id ∧
      (applyVendorOverwrite row.data db.nowISO r).risk_description = r.risk_description) := by
  have hns : resolveAction dA row.rowIndex ≠ "skip" := by rw [ha]; decide
  refine ⟨?_, ?_, ?_, ?_⟩
  · intro nm ex hnm hfind
    simp [importRow, hv, hns, hexc, processProjectRow, overwriteHitProject, ha, hnm, hfind]
  · intro r
    refine ⟨?_, ?_, ?_, ?_, ?_, ?_, ?_, ?_, ?_, ?_, rfl, rfl, rfl, rfl, rfl⟩ <;>
      (intro h; simp [applyProjectOverwrite, h])
  · intro desc ex hlink hdesc hfind
    simp [importRow, hv, hns, hexc, hlink, processVendorRow, overwriteHitVendor, ha, hdesc, hfind]
  · intro r
    exact ⟨rfl, rfl, rfl, rfl, rfl, rfl, rfl, rfl, rfl⟩

/-- Witness for the amended C2: a project overwrite against a store holding
a matching record; the omitted `impact` keeps its stored value and the
timestamp is touched. -/
theorem overwrite_update_semantics_witness :
    importRow (fun _ => none) [(2, "overwrite")] "project" none
        ⟨[⟨5, some "Server outage", "Deployment & integration", some "old desc",
          "\x7bOperational risk\x7d", "old impact", "", "", "Possible", "Moderate",
          "Medium risk", none, "Not Started", "Medium risk", "D0", "old plan", "", "",
          "Possible", "Moderate", "", "Pending", "D0", false, none⟩],
          [], [], [], 6, 1, "T1"⟩
        ⟨2, true, [], [("risk_name", some "Server outage"),
          ("risk_description", some "new desc")]⟩ =
      (⟨2, true, "overwritten", some 5, none⟩,
        ⟨[⟨5, some "Server outage", "Deployment & integration", some "new desc",
          "\x7bOperational risk\x7d", "old impact", "", "", "Possible", "Moderate",
          "Medium risk", none, "Not Started", "Medium risk", "D0", "old plan", "", "",
          "Possible", "Moderate", "", "Pending", "D0", false, some "T1"⟩],
          [], [], [], 6, 1, "T1"⟩) := by
  have h := (overwrite_update_semantics (fun _ => none) [(2, "overwrite")] none
      ⟨[⟨5, some "Server outage", "Deployment & integration", some "old desc",
        "\x7bOperational risk\x7d", "old impact", "", "", "Possible", "Moderate",
        "Medium risk", none, "Not Started", "Medium risk", "D0", "old plan", "", "",
        "Possible", "Moderate", "", "Pending", "D0", false, none⟩],
        [], [], [], 6, 1, "T1"⟩
      ⟨2, true, [], [("risk_name", some "Server outage"),
        ("risk_description", some "new desc")]⟩
      rfl rfl rfl).1 "Server outage" _ rfl rfl
  rw [h]; rfl

/-- C3 counterexample: with one invalid row and no valid rows, the summary
is `{total = 1, duplicates = 0, unique = 1}`: the invalid row counts toward
`unique`, so `duplicates + unique = 1 ≠ 0 =` number of valid rows, contrary
to the claim that invalid rows count toward neither bucket. -/
theorem checkDuplicates_invalid_counts_unique :
    checkDuplicates (some "t") [⟨2, false, ["Risk name is required"], []⟩] "project"
        ⟨[], [], [], [], 1, 1, "T0"⟩ =
      Except.ok ([⟨2, none, none, false⟩], ⟨1, 0, 1⟩, []) ∧
    (([⟨2, false, ["Risk name is required"], []⟩] : List ValidatedRow).filter
        (fun r => r.isValid)).length = 0 ∧
    (0 + 1 : Nat) ≠ 0 := by
  exact ⟨rfl, rfl, by decide⟩

/-- C3 (amended): every invalid row is passed through with
`isDuplicate = false` (null id and name) and issues no database lookup; in
the summary, `total` is the full row count, `duplicates` counts rows with
`isDuplicate = true`, and `unique = total - duplicates`, so invalid rows
count toward `unique` and `duplicates + unique` equals the total row count
(not the number of valid rows). -/
theorem checkDuplicates_invalid_passthrough (t : String) (rows : List ValidatedRow)
    (riskType : String) (db : DB) (dups : List DuplicateResult) (summ : DupSummary)
    (lg : List String)
    (h : checkDuplicates (some t) rows riskType db = Except.ok (dups, summ, lg)) :
    (∀ row : ValidatedRow, row.isValid = false →
      checkRow db riskType row = (⟨row.rowIndex, none, none, false⟩, [])) ∧
    dups = rows.map (fun r => (checkRow db riskType r).1) ∧
    summ.total = rows.length ∧
    summ.duplicates = (dups.filter (fun d => d.isDuplicate)).length ∧
    summ.unique = summ.total - summ.duplicates ∧
    summ.duplicates + summ.unique = rows.length ∧
    lg = (rows.map (fun r => (checkRow db riskType r).2)).flatten := by
  simp only [checkDuplicates, Except.ok.injEq, Prod.mk.injEq] at h
  obtain ⟨h1, h2, h3⟩ := h
  subst h1; subst h2; subst h3
  have hlen : (List.map (fun p => p.1) (List.map (checkRow db riskType) rows)).length
      = rows.length := by simp
  have hdc : (List.filter (fun d => d.isDuplicate)
      (List.map (fun p => p.1) (List.map (checkRow db riskType) rows))).length ≤
      (List.map (fun p => p.1) (List.map (checkRow db riskType) rows)).length :=
    List.length_filter_le _ _
  refine ⟨?_, ?_, ?_, rfl, rfl, ?_, ?_⟩
  · intro row hrow
    simp [checkRow, hrow]
  · simp [List.map_map]
  · exact hlen
  · simp only []
    omega
  · rw [List.map_map]; rfl

/-- Witness for the amended C3 at a two-row input (one invalid row, one
valid duplicate row): `duplicates + unique` comes out as the full row
count 2, not the valid-row count 1. -/
theorem checkDuplicates_invalid_passthrough_witness :
    (⟨2, 1, 1⟩ : DupSummary).total = 2 ∧
    (⟨2, 1, 1⟩ : DupSummary).duplicates + (⟨2, 1, 1⟩ : DupSummary).unique = 2 := by
  have h := checkDuplicates_invalid_passthrough "t"
    [⟨2, false, ["Risk name is required"], []⟩,
      ⟨3, true, [], [("risk_name", some "Server outage")]⟩] "project"
    ⟨[⟨1, some "Server outage", "", some "d", "", "", "", "", "", "", "", none,
      "", "", "", "", "", "", "", "", "", "", "", false, none⟩], [], [], [], 2, 1, "T0"⟩
    [⟨2, none, none, false⟩, ⟨3, some 1, some "Server outage", true⟩] ⟨2, 1, 1⟩
    ["Server outage"] rfl
  exact ⟨h.2.2.1, h.2.2.2.2.2.1⟩

/-- The shape every pushed outcome has: an action among the four literals,
and `success` exactly when the action is not `error`. -/
def actionOk (o : Outcome) : Prop :=
  (o.action = "created" ∨ o.action = "overwritten" ∨ o.action = "skipped" ∨
    o.action = "error") ∧
  (o.success = true ↔ o.action ≠ "error")

/-- Every branch of the per-row import pushes an outcome with the row's own
`rowIndex` and a well-formed action/success pair. -/
theorem importRow_shape (exc : Nat → Option String) (dA : List (Nat × String))
    (riskType : String) (linkTo : Option LinkTo) (db : DB) (row : ValidatedRow) :
    (importRow exc dA riskType linkTo db row).1.rowIndex = row.rowIndex ∧
    actionOk (importRow exc dA riskType linkTo db row).1 := by
  have hp : ∀ action, (processProjectRow db row.data row.rowIndex action linkTo).1.rowIndex
        = row.rowIndex ∧
      actionOk (processProjectRow db row.data row.rowIndex action linkTo).1 := by
    intro action
    unfold processProjectRow
    rcases hhit : overwriteHitProject db row.data action with _ | ex <;> simp [actionOk]
  have hw : ∀ action vid, (processVendorRow db row.data row.rowIndex action vid).1.rowIndex
        = row.rowIndex ∧
      actionOk (processVendorRow db row.data row.rowIndex action vid).1 := by
    intro action vid
    unfold processVendorRow
    rcases hhit : overwriteHitVendor db row.data action vid with _ | ex <;> simp [actionOk]
  unfold importRow
  by_cases hv : (!row.isValid) = true
  · simp [hv, actionOk]
  · by_cases hsk : resolveAction dA row.rowIndex = "skip"
    · simp [hv, hsk, actionOk]
    · by_cases hrt : riskType = "project"
      · rcases hexc : exc row.rowIndex with _ | msg
        · simpa [hv, hsk, hrt, hexc] using hp (resolveAction dA row.rowIndex)
        · simp [hv, hsk, hrt, hexc, actionOk]
      · by_cases hlink : vendorLinkInvalid linkTo = true
        · simp [hv, hsk, hrt, hlink, actionOk]
        · rcases hexc : exc row.rowIndex with _ | msg
          · simpa [hv, hsk, hrt, hlink, hexc] using
              hw (resolveAction dA row.rowIndex) ((linkTo.bind LinkTo.id).getD 0)
          · simp [hv, hsk, hrt, hlink, hexc, actionOk]

/-- The import loop emits outcomes in input order with matching row
indexes, and every outcome is well-formed. -/
theorem importLoop_shape (exc : Nat → Option String) (dA : List (Nat × String))
    (riskType : String) (linkTo : Option LinkTo) (rows : List ValidatedRow) :
    ∀ db : DB,
      (importLoop exc dA riskType linkTo db rows).1.map (fun o => o.rowIndex) =
        rows.map (fun r => r.rowIndex) ∧
      ∀ o ∈ (importLoop exc dA riskType linkTo db rows).1, actionOk o := by
  induction rows with
  | nil => intro db; exact ⟨rfl, by intro o ho; cases ho⟩
  | cons r rs ih =>
    intro db
    have hr := importRow_shape exc dA riskType linkTo db r
    have hrest := ih (importRow exc dA riskType linkTo db r).2
    constructor
    · simp [importLoop, hr.1, hrest.1]
    · intro o ho
      simp only [importLoop, List.mem_cons] at ho
      rcases ho with ho | ho
      · rw [ho]; exact hr.2
      · exact hrest.2 o ho

/-- Counting: over any outcome list whose members are well-formed, the
success count is the sum of the created/overwritten/skipped counts and the
total is success plus errors. -/
theorem summarize_counts (l : List Outcome) (h : ∀ o ∈ l, actionOk o) :
    (summarize l).success =
      (summarize l).created + (summarize l).overwritten + (summarize l).skipped ∧
    (summarize l).total = (summarize l).success + (summarize l).errors := by
  induction l with
  | nil => simp [summarize]
  | cons o rest ih =>
    have ho := h o (List.mem_cons_self o rest)
    have hrest := ih (fun x hx => h x (List.mem_cons_of_mem o hx))
    obtain ⟨hact, hsucc⟩ := ho
    simp only [summarize] at hrest ⊢
    rcases hact with h1 | h1 | h1 | h1
    · have hs : o.success = true := hsucc.mpr (by rw [h1]; decide)
      simp only [List.filter_cons, h1, hs, List.length_cons]
      simp
      omega
    · have hs : o.success = true := hsucc.mpr (by rw [h1]; decide)
      simp only [List.filter_cons, h1, hs, List.length_cons]
      simp
      omega
    · have hs : o.success = true := hsucc.mpr (by rw [h1]; decide)
      simp only [List.filter_cons, h1, hs, List.length_cons]
      simp
      omega
    · have hs : o.success = false := by
        cases hs2 : o.success
        · rfl
        · exact absurd h1 (by simpa using hsucc.mp hs2)
      simp only [List.filter_cons, h1, hs, List.length_cons]
      simp
      omega

/-- C1: one transaction per import call.  With a tenant context the call
always commits and returns one outcome per input row (a per-row exception
does not abort the batch); a row whose first query raises an exception
yields exactly the `error` outcome carrying that message and leaves the
database unchanged for that row, while every other row is still processed;
without a tenant context the whole request fails and no per-row write is
persisted (the caller's database state is returned to unchanged). -/
theorem import_transaction_error_isolation (t : String) (rows : List ValidatedRow)
    (dA : List (Nat × String)) (riskType : String) (linkTo : Option LinkTo)
    (exc : Nat → Option String) (db : DB) :
    (∃ resp, importCall (some t) rows dA riskType linkTo exc db = Except.ok resp ∧
      resp.results.length = rows.length) ∧
    (importCall none rows dA riskType linkTo exc db =
      Except.error "Unauthorized - tenant not found") ∧
    (∀ (db0 : DB) (row : ValidatedRow) (msg : String), row.isValid = true →
      resolveAction dA row.rowIndex ≠ "skip" →
      exc row.rowIndex = some msg →
      (riskType = "project" ∨ vendorLinkInvalid linkTo = false) →
      importRow exc dA riskType linkTo db0 row =
        (⟨row.rowIndex, false, "error", none, some msg⟩, db0)) := by
  refine ⟨?_, rfl, ?_⟩
  · refine ⟨_, rfl, ?_⟩
    have h := (importLoop_shape exc dA riskType linkTo rows db).1
    simpa [importCall] using congrArg List.length h
  · intro db0 row msg hv hns hexc hcase
    rcases hcase with hrt | hlink
    · simp [importRow, hv, hns, hrt, hexc]
    · by_cases hrt : riskType = "project"
      · simp [importRow, hv, hns, hrt, hexc]
      · simp [importRow, hv, hns, hrt, hlink, hexc]

/-- Witness for C1: a two-row project import where the first row's query
raises; the call still commits with both rows in the ledger and the first
row reported as `error`. -/
theorem import_transaction_error_isolation_witness :
    (∃ resp, importCall (some "t")
        [⟨2, true, [], [("risk_name", some "A"), ("risk_description", some "B")]⟩,
          ⟨3, true, [], [("risk_name", some "C"), ("risk_description", some "D")]⟩]
        [] "project" none (fun i => if i = 2 then some "boom" else none)
        ⟨[], [], [], [], 1, 1, "T0"⟩ = Except.ok resp ∧
      resp.results.length = 2) ∧
    importRow (fun i => if i = 2 then some "boom" else none) [] "project" none
        ⟨[], [], [], [], 1, 1, "T0"⟩
        ⟨2, true, [], [("risk_name", some "A"), ("risk_description", some "B")]⟩ =
      (⟨2, false, "error", none, some "boom"⟩, ⟨[], [], [], [], 1, 1, "T0"⟩) := by
  have h := import_transaction_error_isolation "t"
    [⟨2, true, [], [("risk_name", some "A"), ("risk_description", some "B")]⟩,
      ⟨3, true, [], [("risk_name", some "C"), ("risk_description", some "D")]⟩]
    [] "project" none (fun i => if i = 2 then some "boom" else none)
    ⟨[], [], [], [], 1, 1, "T0"⟩
  exact ⟨h.1, h.2.2 ⟨[], [], [], [], 1, 1, "T0"⟩
    ⟨2, true, [], [("risk_name", some "A"), ("risk_description", some "B")]⟩
    "boom" rfl (by decide) rfl (Or.inl rfl)⟩

/-- C9: every committed import returns one outcome per input row, in input
order with matching `rowIndex`; every outcome's action is one of
created/overwritten/skipped/error with `success` true exactly when the
action is not `error`; and the summary satisfies `total` = row count,
`success = created + overwritten + skipped` and
`total = success + errors`. -/
theorem import_outcome_invariants (t : String) (rows : List ValidatedRow)
    (dA : List (Nat × String)) (riskType : String) (linkTo : Option LinkTo)
    (exc : Nat → Option String) (db : DB) (resp : ImportResponse)
    (h : importCall (some t) rows dA riskType linkTo exc db = Except.ok resp) :
    resp.results.map (fun o => o.rowIndex) = rows.map (fun r => r.rowIndex) ∧
    (∀ o ∈ resp.results,
      (o.action = "created" ∨ o.action = "overwritten" ∨ o.action = "skipped" ∨
        o.action = "error") ∧
      (o.success = true ↔ o.action ≠ "error")) ∧
    resp.summary = summarize resp.results ∧
    resp.summary.total = rows.length ∧
    resp.summary.success =
      resp.summary.created + resp.summary.overwritten + resp.summary.skipped ∧
    resp.summary.total = resp.summary.success + resp.summary.errors := by
  have hshape := importLoop_shape exc dA riskType linkTo rows db
  simp only [importCall, Except.ok.injEq] at h
  subst h
  refine ⟨hshape.1, hshape.2, rfl, ?_, ?_⟩
  · show (summarize (importLoop exc dA riskType linkTo db rows).1).total = rows.length
    have := congrArg List.length hshape.1
    simpa [summarize] using this
  · exact summarize_counts _ hshape.2

/-- Witness for C9 at a concrete three-row import (one invalid row, one
skip row, one created row). -/
theorem import_outcome_invariants_witness :
    ([⟨2, false, "error", none, some "Risk name is required"⟩,
        ⟨3, true, "skipped", none, none⟩,
        ⟨4, true, "created", some 1, none⟩] : List Outcome).map (fun o => o.rowIndex) =
      ([⟨2, false, ["Risk name is required"], []⟩,
        ⟨3, true, [], [("risk_name", some "A"), ("risk_description", some "B")]⟩,
        ⟨4, true, [], [("risk_name", some "C"), ("risk_description", some "D")]⟩]
          : List ValidatedRow).map (fun r => r.rowIndex) ∧
    (⟨3, 2, 1, 0, 1, 1⟩ : ImportSummary).total = 3 ∧
    (⟨3, 2, 1, 0, 1, 1⟩ : ImportSummary).success =
      (⟨3, 2, 1, 0, 1, 1⟩ : ImportSummary).created +
        (⟨3, 2, 1, 0, 1, 1⟩ : ImportSummary).overwritten +
        (⟨3, 2, 1, 0, 1, 1⟩ : ImportSummary).skipped ∧
    (⟨3, 2, 1, 0, 1, 1⟩ : ImportSummary).total =
      (⟨3, 2, 1, 0, 1, 1⟩ : ImportSummary).success +
        (⟨3, 2, 1, 0, 1, 1⟩ : ImportSummary).errors := by
  have h := import_outcome_invariants "t"
    [⟨2, false, ["Risk name is required"], []⟩,
      ⟨3, true, [], [("risk_name", some "A"), ("risk_description", some "B")]⟩,
      ⟨4, true, [], [("risk_name", some "C"), ("risk_description", some "D")]⟩]
    [(3, "skip")] "project" none (fun _ => none) ⟨[], [], [], [], 1, 1, "T0"⟩
    ⟨[⟨2, false, "error", none, some "Risk name is required"⟩,
        ⟨3, true, "skipped", none, none⟩,
        ⟨4, true, "created", some 1, none⟩],
      ⟨3, 2, 1, 0, 1, 1⟩,
      ⟨[insertProjectRisk ⟨[], [], [], [], 1, 1, "T0"⟩
          [("risk_name", some "C"), ("risk_description", some "D")]],
        [], [], [], 2, 1, "T0"⟩⟩ rfl
  exact ⟨h.1, h.2.2.2.1, h.2.2.2.2.1, h.2.2.2.2.2⟩

/-- Reading a freshly assigned mapped-data field. -/
theorem lookupField_setKey (d : List (String × Option String)) (k : String)
    (v : Option String) : lookupField (setKey d k v) k = v := by
  simp [lookupField, lookupKey_setKey]

/-- C10: for vendor rows with auto-calculation enabled, the vendor enum
vocabularies barely intersect the matrix keys: over the vendor likelihood
and severity option lists, the lookup hits exactly when the likelihood is
`Likely`/`Possible`/`Unlikely`/`Rare` AND the severity is `Moderate`; then
validation stores the matrix label under `risk_level`, and in every other
option combination (all other vendor severities, and likelihood
`Very likely`) the lookup misses and `risk_level` is left unset. -/
theorem vendor_autocalc_vocab_intersection (parseDate : String → Option String)
    (mapping : List Mapping) (prow : ParsedRow) (l s : String)
    (hl : l ∈ fieldOptions VENDOR_RISK_FIELDS "likelihood")
    (hs : s ∈ fieldOptions VENDOR_RISK_FIELDS "risk_severity")
    (h1 : lookupField (applyMapping mapping prow.data) "likelihood" = some l)
    (h2 : lookupField (applyMapping mapping prow.data) "risk_severity" = some s)
    (h3 : lookupField (applyMapping mapping prow.data) "risk_level" = none) :
    ((l = "Likely" ∨ l = "Possible" ∨ l = "Unlikely" ∨ l = "Rare") ∧ s = "Moderate" →
      lookupField (validateRow parseDate true "vendor" mapping prow).data "risk_level" =
        matrixLookup l s ∧ (matrixLookup l s).isSome = true) ∧
    (¬((l = "Likely" ∨ l = "Possible" ∨ l = "Unlikely" ∨ l = "Rare") ∧ s = "Moderate") →
      lookupField (validateRow parseDate true "vendor" mapping prow).data "risk_level" =
        none) := by
  have hdata : (validateRow parseDate true "vendor" mapping prow).data =
      applyAutoCalc true "vendor" (applyMapping mapping prow.data) := rfl
  rw [hdata]
  simp [fieldOptions, VENDOR_RISK_FIELDS, List.find?] at hl hs
  rcases hl with hl | hl | hl | hl | hl <;> subst hl <;>
    rcases hs with hs | hs | hs | hs | hs <;> subst hs <;>
    rcases hcalc : calculateRiskLevel
      (lookupField (applyMapping mapping prow.data) "likelihood")
      (lookupField (applyMapping mapping prow.data) "risk_severity") with _ | lvl <;>
    rw [h1, h2] at hcalc <;>
    first
    | (exfalso
       revert hcalc
       simp [calculateRiskLevel, orNull, matrixLookup, lookupKey, RISK_MATRIX, List.find?]
       done)
    | (refine ⟨fun hcond => absurd hcond ?_, fun _ => ?_⟩
       · decide
       · simp [applyAutoCalc, h1, h2, hcalc, h3])
    | (refine ⟨fun _ => ⟨?_, ?_⟩, fun hcond => absurd ?_ hcond⟩
       · simp [applyAutoCalc, h1, h2, hcalc, lookupField_setKey]
         rw [← hcalc]
         decide
       · decide
       · decide)

/-- Witness for C10: likelihood `Likely` with vendor severity `Moderate`
hits the matrix and validation stores `High risk` under `risk_level`. -/
theorem vendor_autocalc_vocab_intersection_witness :
    lookupField (validateRow (fun d => some d) true "vendor"
        [⟨"L", "likelihood"⟩, ⟨"S", "risk_severity"⟩]
        ⟨2, [("L", "Likely"), ("S", "Moderate")]⟩).data "risk_level" = some "High risk" := by
  have h := (vendor_autocalc_vocab_intersection (fun d => some d)
      [⟨"L", "likelihood"⟩, ⟨"S", "risk_severity"⟩] ⟨2, [("L", "Likely"), ("S", "Moderate")]⟩
      "Likely" "Moderate" (by decide) (by decide) rfl rfl rfl).1
      ⟨Or.inl rfl, rfl⟩
  rw [h.1]
  rfl

end RiskImporter
